import Mathlib

/-!
Verification of the MercadoPago MCP server (src/index.ts) against its
specification.  The development shallowly embeds the two stateful parts of
the program — the `AuthService` token cache and the axios interceptor
pipeline (`setupAxiosInterceptors`) — as explicit state-passing functions,
and the tool dispatcher and handlers (`setupToolHandlers`,
`handleCreateCustomer`, `handleDocumentTypes`, `handlePaymentsMethods`,
`handleSearchDocumentation`) as pure functions over an environment that
records what each upstream HTTP interaction would return.
-/

namespace MercadoPago

/-! ## The authenticated API client pipeline

`AuthService` holds `accessToken : string | null`; the axios response
interceptor clears it and re-issues the request once on a 401.  The state
also carries three instrumentation counters (number of token-exchange
attempts, of `clearToken` invocations, and of upstream HTTP calls) so that
"exactly one clear / exchange / retry" claims can be stated; the counters
change nothing observable. -/

/-- Outcome of one upstream HTTP call, as seen by the axios response
interceptor: a 2xx response carrying a payload (abstracted to a `Nat`
identifier, no claim inspects it at this layer), or a failure whose
`status` is `some code` for an HTTP error response and `none` for a
network error without a response (`error.response?.status` is undefined). -/
inductive HttpOutcome where
  | success (data : Nat)
  | failure (status : Option Nat)
deriving DecidableEq, Repr

/-- Environment for the pipeline: what the identity endpoint answers to the
`i`-th token-exchange attempt (`.error msg` = transport/non-2xx failure
with message `msg`), and what the `i`-th upstream HTTP call returns. -/
structure Env where
  exchange : Nat → Except String String
  response : Nat → HttpOutcome

/-- State of the client: the `AuthService.accessToken` field
(`none` = the JS `null`), plus the three instrumentation counters. -/
structure PipelineState where
  accessToken : Option String
  exchangeCount : Nat
  clearCount : Nat
  callCount : Nat
deriving DecidableEq, Repr

/-- Errors a pipeline call can surface to its caller: the `McpError` thrown
by `AuthService.getAccessToken` on a failed exchange, or the axios error
re-thrown by the response interceptor. -/
inductive PipeError where
  | authError (msg : String)
  | httpError (status : Option Nat)
deriving DecidableEq, Repr

/-- The body of `AuthService.getAccessToken` past the cache check: POST to
the OAuth endpoint; on success store `response.data.access_token` in the
cache and return it, on failure throw
`McpError("MercadoPago Auth error: " + message)` leaving the cache as it
was. -/
def requestOAuthToken (env : Env) (s : PipelineState) :
    Except PipeError String × PipelineState :=
  match env.exchange s.exchangeCount with
  | .ok tok =>
      (.ok tok,
       { s with accessToken := some tok, exchangeCount := s.exchangeCount + 1 })
  | .error msg =>
      (.error (.authError ("MercadoPago Auth error: " ++ msg)),
       { s with exchangeCount := s.exchangeCount + 1 })

/-- `AuthService.getAccessToken`: `if (this.accessToken) return this.accessToken;`
then the OAuth exchange.  The JS truthiness test makes an empty string
behave like an absent token, hence the explicit `t = ""` branch. -/
def getAccessToken (env : Env) (s : PipelineState) :
    Except PipeError String × PipelineState :=
  match s.accessToken with
  | some t => if t = "" then requestOAuthToken env s else (.ok t, s)
  | none => requestOAuthToken env s

/-- `AuthService.clearToken`: sets the cached token to `null`
(and bumps the instrumentation counter). -/
def clearToken (s : PipelineState) : PipelineState :=
  { s with accessToken := none, clearCount := s.clearCount + 1 }

/-- One `this.api(...)` invocation whose request config already has
`__isRetry = true`: the request interceptor acquires a token, the call is
issued, and the response interceptor propagates any failure unchanged —
the `!config.__isRetry` guard fails, so a second 401 is terminal. -/
def apiCallRetry (env : Env) (s : PipelineState) :
    Except PipeError Nat × PipelineState :=
  match getAccessToken env s with
  | (.error e, s1) => (.error e, s1)
  | (.ok _, s1) =>
      let s2 := { s1 with callCount := s1.callCount + 1 }
      match env.response s1.callCount with
      | .success d => (.ok d, s2)
      | .failure st => (.error (.httpError st), s2)

/-- One fresh `this.api(...)` invocation (`__isRetry` unset): the request
interceptor acquires a token, the call is issued, and on a failure with
status exactly 401 the response interceptor clears the token store, marks
the config retried, and re-issues the whole call once (`apiCallRetry`);
any other failure is re-thrown to the caller. -/
def apiCall (env : Env) (s : PipelineState) :
    Except PipeError Nat × PipelineState :=
  match getAccessToken env s with
  | (.error e, s1) => (.error e, s1)
  | (.ok _, s1) =>
      let s2 := { s1 with callCount := s1.callCount + 1 }
      match env.response s1.callCount with
      | .success d => (.ok d, s2)
      | .failure st =>
          if st = some 401 then
            apiCallRetry env (clearToken s2)
          else
            (.error (.httpError st), s2)

/-! ## Tool responses, arguments, and the dispatcher

`ToolResponse` is the envelope every handler returns.  Its `isError` field
is modelled as `Option Bool`: the JS objects returned by the handlers
either omit the field (`none`) or set it to `true` (`some true`). -/

/-- One element of a `ToolResponse`'s `content` array; `type` is always
the literal string `"text"` in this program. -/
structure TextContent where
  type : String
  text : String
deriving DecidableEq, Repr

/-- The envelope returned by every tool handler. -/
structure ToolResponse where
  content : List TextContent
  isError : Option Bool
deriving DecidableEq, Repr

/-- Projection of the incoming `request.params.arguments` JSON object onto
the fields the program ever reads: `language`, `query`, `siteId`, `limit`
(read by `isSearchDocumentationArgs` / `handleSearchDocumentation`) and
`email` (read by `handleCreateCustomer`).  `none` = the field is absent or
not of the type the code tests for (`typeof a.query === 'string'`,
`typeof a.limit === 'number'`); JS numbers are modelled as `Int`. -/
structure ToolArgs where
  language : Option String
  query : Option String
  siteId : Option String
  limit : Option Int
  email : Option String
deriving DecidableEq, Repr

/-- `DemoMercadoPagoServer.VALID_SITES`. -/
def VALID_SITES : List String :=
  ["MLA", "MLB", "MLM", "MLU", "MLC", "MCO", "MPE"]

/-- `DemoMercadoPagoServer.isSearchDocumentationArgs`.  The outer
`Option` models the `!args || typeof args !== 'object'` guard.  The JS
truthiness tests `a.language && ...` and `a.siteId && ...` make the empty
string fail, hence the explicit `!= ""` conjuncts. -/
def isSearchDocumentationArgs (args : Option ToolArgs) : Bool :=
  match args with
  | none => false
  | some a =>
      let validLanguage :=
        match a.language with
        | some l => l != "" && (["es", "pt"] : List String).contains l
        | none => false
      let validQuery := a.query.isSome
      let validSiteId :=
        match a.siteId with
        | some s => s != "" && VALID_SITES.contains s
        | none => false
      let validLimit :=
        match a.limit with
        | none => true
        | some n => decide (1 ≤ n ∧ n ≤ 100)
      validLanguage && validQuery && validSiteId && validLimit

/-- The arguments as seen by `handleSearchDocumentation` after the
`args is SearchDocumentationArgs` type assertion has been established by
the guard; the defaults are never taken on guarded values. -/
structure SearchDocumentationArgs where
  language : String
  query : String
  siteId : String
  limit : Option Int
deriving DecidableEq, Repr

/-- Reading `ToolArgs` through the `SearchDocumentationArgs` TS type
assertion made by the dispatcher once `isSearchDocumentationArgs` holds. -/
def toSearchArgs (a : ToolArgs) : SearchDocumentationArgs :=
  { language := a.language.getD ""
    query := a.query.getD ""
    siteId := a.siteId.getD ""
    limit := a.limit }

/-- `DemoMercadoPagoServer.SITE_DOMAINS`, a `Record<SiteId, string>`;
lookup with a key outside the record yields the JS `undefined`, modelled
as `""` (both are falsy, which is all the program tests). -/
def SITE_DOMAINS (siteId : String) : String :=
  if siteId = "MLA" then "www.mercadopago.com.ar"
  else if siteId = "MLB" then "www.mercadopago.com.br"
  else if siteId = "MLM" then "www.mercadopago.com.mx"
  else if siteId = "MLU" then "www.mercadopago.com.uy"
  else if siteId = "MLC" then "www.mercadopago.cl"
  else if siteId = "MCO" then "www.mercadopago.com.co"
  else if siteId = "MPE" then "www.mercadopago.com.pe"
  else ""

/-- `DemoMercadoPagoServer.buildDocumentationUrl`: throws
`McpError(InvalidParams, ...)` when `siteDomain` or `language` is falsy,
otherwise returns the template string.  `path || ''` is written out as the
conditional. -/
def buildDocumentationUrl (siteDomain language path : String) :
    Except String String :=
  if siteDomain = "" ∨ language = "" then
    .error "Missing required parameters for URL construction"
  else
    .ok ("https://" ++ siteDomain ++ "/developers/" ++ language
          ++ (if path = "" then "" else path))

/-! ## Handlers -/

/-- One record of a `/v1/identification_types` or `/v1/payment_methods`
listing; every field the formatters read, as strings. -/
structure MethodRecord where
  name : String
  payment_type_id : String
  type : String
  thumbnail : String
deriving DecidableEq, Repr

/-- One element of the `/docs/v1/search` response array.  The string
fields are `none` when absent; the JS truthiness tests also treat an empty
string as absent, which the definitions below spell out. -/
structure SearchResult where
  title : Option String
  content : Option String
  url : Option String
  score : Option Int
deriving DecidableEq, Repr

/-- JS `v || d` for an optional string field `v`: absent and `""` are
falsy. -/
def strOrDefault (v : Option String) (d : String) : String :=
  match v with
  | some s => if s = "" then d else s
  | none => d

/-- JS truthiness of an optional string field. -/
def strTruthy (v : Option String) : Bool :=
  match v with
  | some s => s != ""
  | none => false

/-- JS `Array.prototype.join`: elements are concatenated with the
separator between every pair of consecutive slots; `null` elements (the
skipped search results) render as the empty string but keep their
separator slots. -/
def jsJoin (sep : String) : List (Option String) → String
  | [] => ""
  | [x] => x.getD ""
  | x :: y :: xs => x.getD "" ++ sep ++ jsJoin sep (y :: xs)

/-- A `{ type: 'text', text: t }` content element. -/
def textContent (t : String) : TextContent :=
  { type := "text", text := t }

/-- The fallback envelope `handleCreateCustomer` falls through to after
its `catch` block (note the copy/pasted "document types" text). -/
def createCustomerFallback : ToolResponse :=
  { content := [textContent "No document types found. Try again later."]
    isError := none }

/-- `DemoMercadoPagoServer.handleCreateCustomer`.  The upstream outcome of
the POST (issued whatever `args` holds — the handler performs no
validation) is `.error ()` when the call throws, and otherwise carries
`response.data.user_id` read off the body: `.ok none` models a nullish
`response.data` (reading `.user_id` throws a `TypeError`, caught by the
`catch`), `.ok (some none)` a body without a `user_id` field (the JS
`undefined` is interpolated into the success text), and
`.ok (some (some uid))` a body with identifier `uid`. -/
def handleCreateCustomer (args : Option ToolArgs)
    (outcome : Except Unit (Option (Option String))) : ToolResponse :=
  match outcome with
  | .ok (some uid) =>
      { content := [textContent ("Customer created successfully with id: "
          ++ (match uid with | some u => u | none => "undefined"))]
        isError := none }
  | .ok none => createCustomerFallback
  | .error _ => createCustomerFallback

/-- `DemoMercadoPagoServer.handleDocumentTypes`: formats each record and
joins with a horizontal rule; any thrown failure (transport error, or
`response.data` not an array so `.map` throws) lands in the `catch` and
falls through to the fixed fallback text. -/
def handleDocumentTypes (outcome : Except Unit (List MethodRecord)) :
    ToolResponse :=
  match outcome with
  | .ok data =>
      { content := [textContent (String.intercalate "\n\n---\n\n"
          (data.map (fun m =>
            "## " ++ m.name ++ " \n id: " ++ m.payment_type_id
              ++ " \ntype: " ++ m.type)))]
        isError := none }
  | .error _ =>
      { content := [textContent "No document types found. Try again later."]
        isError := none }

/-- `DemoMercadoPagoServer.handlePaymentsMethods`: as `handleDocumentTypes`
but rendering `thumbnail` and with its own fallback text. -/
def handlePaymentsMethods (outcome : Except Unit (List MethodRecord)) :
    ToolResponse :=
  match outcome with
  | .ok data =>
      { content := [textContent (String.intercalate "\n\n---\n\n"
          (data.map (fun m =>
            "## " ++ m.name ++ " \n id: " ++ m.payment_type_id
              ++ " \nthumbnail: " ++ m.thumbnail)))]
        isError := none }
  | .error _ =>
      { content := [textContent "No payments found. Try again later."]
        isError := none }

/-- The per-result block of `handleSearchDocumentation`'s `results.map`:
`none` when the result misses both `title` and `content` (the code
returns `null`, skipping it), otherwise the markdown block; a throw from
`buildDocumentationUrl` propagates (`Except.error`) to the handler's
`catch`. -/
def renderResultBlock (siteId language : String) (r : SearchResult) :
    Except String (Option String) :=
  if !strTruthy r.title && !strTruthy r.content then
    .ok none
  else
    match buildDocumentationUrl (SITE_DOMAINS siteId) language
        (strOrDefault r.url "") with
    | .error e => .error e
    | .ok url =>
        .ok (some ("## " ++ strOrDefault r.title "Untitled" ++ "\n"
          ++ strOrDefault r.content "No description available"
          ++ "\n\n🔗 [Read more](" ++ url ++ ")\n\nScore: "
          ++ toString (r.score.getD 0) ++ "\n"))

/-- The whole `results.map(...)` of `handleSearchDocumentation`; a throw
inside the map aborts it, as `Except`'s `mapM` does. -/
def renderBlocks (siteId language : String) (results : List SearchResult) :
    Except String (List (Option String)) :=
  results.mapM (renderResultBlock siteId language)

/-- The header of the search markdown:
`# Search Results for "<query>"` and `Showing <n> results`. -/
def searchHeader (query : String) (n : Nat) : String :=
  "# Search Results for \"" ++ query ++ "\"\nShowing " ++ toString n
    ++ " results\n\n"

/-- `DemoMercadoPagoServer.handleSearchDocumentation`.  The `outcome` is
`.ok results` when the GET returns an array, and `.error msg` when the
call throws with message `msg` — this also covers the internal
`McpError('No search results available ...')` thrown when `response.data`
is not an array, since that lands in the same `catch`. -/
def handleSearchDocumentation (args : SearchDocumentationArgs)
    (outcome : Except String (List SearchResult)) : ToolResponse :=
  match outcome with
  | .error msg =>
      { content := [textContent ("Error searching documentation: " ++ msg)]
        isError := some true }
  | .ok results =>
      if results.length = 0 then
        { content := [textContent ("No documentation found for query \""
            ++ args.query ++ "\". Try a different search term.")]
          isError := none }
      else
        match renderBlocks args.siteId args.language results with
        | .error msg =>
            { content := [textContent ("Error searching documentation: " ++ msg)]
              isError := some true }
        | .ok blocks =>
            { content := [textContent (searchHeader args.query results.length
                ++ (if results.length > 0 then
                      jsJoin "\n\n---\n\n" blocks
                    else "No results found."))]
              isError := none }

/-! ## The call-tool dispatcher -/

/-- What each upstream interaction would yield, per tool; see the
handlers' doc comments for the encodings. -/
structure CallEnv where
  createCustomer : Except Unit (Option (Option String))
  documentTypes : Except Unit (List MethodRecord)
  paymentsMethods : Except Unit (List MethodRecord)
  searchDocs : Except String (List SearchResult)

/-- Protocol-level `McpError` codes used by the dispatcher. -/
inductive ErrCode where
  | invalidParams
  | methodNotFound
  | internalError
deriving DecidableEq, Repr

/-- What the call-tool request handler hands back to the protocol layer:
a `ToolResponse` envelope, or a thrown `McpError` (protocol-level error).
The handler's outer `catch` re-throws every non-axios error, and the
handlers catch their own axios errors, so the dispatcher's own `McpError`s
surface unchanged. -/
inductive ToolResult where
  | envelope (r : ToolResponse)
  | protocolError (code : ErrCode) (msg : String)
deriving DecidableEq, Repr

/-- The call-tool request handler of `setupToolHandlers`.  The `Nat`
counts `this.api` invocations made while serving the request (each one
first runs the auth request interceptor, so zero means no network request
of any kind, auth exchange included; each registered handler makes exactly
one attempt).  Only `search_documentation` arguments are validated; the
other three handlers run unconditionally. -/
def callTool (env : CallEnv) (name : String) (args : Option ToolArgs) :
    ToolResult × Nat :=
  if name = "search_documentation" then
    if isSearchDocumentationArgs args then
      match args with
      | some a =>
          (.envelope (handleSearchDocumentation (toSearchArgs a) env.searchDocs), 1)
      | none =>
          (.protocolError .invalidParams "Invalid search_documentation arguments", 0)
    else
      (.protocolError .invalidParams "Invalid search_documentation arguments", 0)
  else if name = "payments_methods" then
    (.envelope (handlePaymentsMethods env.paymentsMethods), 1)
  else if name = "document_types" then
    (.envelope (handleDocumentTypes env.documentTypes), 1)
  else if name = "create_customer" then
    (.envelope (handleCreateCustomer args env.createCustomer), 1)
  else
    (.protocolError .methodNotFound ("Unknown tool: " ++ name), 0)

/-! ## Concrete environments and inputs used by witnesses and
counterexamples -/

/-- An environment where every upstream interaction fails. -/
def envAllFail : CallEnv :=
  { createCustomer := .error ()
    documentTypes := .error ()
    paymentsMethods := .error ()
    searchDocs := .error "Network Error" }

/-- A `create_customer` argument object carrying only an email. -/
def emailOnlyArgs : ToolArgs :=
  { language := none, query := none, siteId := none, limit := none
    email := some "user@example.com" }

/-- A `create_customer` argument object with no fields at all (in
particular, no `email`). -/
def noEmailArgs : ToolArgs :=
  { language := none, query := none, siteId := none, limit := none
    email := none }

/-! ## Theorems -/

/-- Claim C10: for every siteId in the static lookup table (whose domain
is therefore non-empty), every language in es/pt and every path string
including the empty one, `buildDocumentationUrl` deterministically
returns exactly `https://<domain>/developers/<language><path>`. -/
theorem buildDocumentationUrl_deterministic :
    ∀ siteId ∈ VALID_SITES, ∀ lang ∈ (["es", "pt"] : List String),
    ∀ path : String,
      SITE_DOMAINS siteId ≠ "" ∧
      buildDocumentationUrl (SITE_DOMAINS siteId) lang path =
        .ok ("https://" ++ SITE_DOMAINS siteId ++ "/developers/"
              ++ lang ++ path) := by
  intro siteId hs lang hl path
  have hd : SITE_DOMAINS siteId ≠ "" := by
    fin_cases hs <;> decide
  have hlang : lang ≠ "" := by
    fin_cases hl <;> decide
  refine ⟨hd, ?_⟩
  unfold buildDocumentationUrl
  rw [if_neg (by simp [hd, hlang])]
  have hpath : (if path = "" then "" else path) = path := by
    split <;> simp_all
  rw [hpath]

/-- Witness for C10 at siteId MLA, language es, path `/docs`. -/
theorem buildDocumentationUrl_deterministic_witness :
    SITE_DOMAINS "MLA" ≠ "" ∧
    buildDocumentationUrl (SITE_DOMAINS "MLA") "es" "/docs" =
      .ok ("https://" ++ SITE_DOMAINS "MLA" ++ "/developers/"
            ++ "es" ++ "/docs") :=
  buildDocumentationUrl_deterministic "MLA" (by decide) "es" (by decide)
    "/docs"

/-- Claim C8: for every call-tool request whose tool name is not one of
the four registered tools, the dispatcher throws a method-not-found
protocol error, performs no upstream call, and never returns a
`ToolResponse` envelope. -/
theorem unknown_tool_method_not_found (env : CallEnv) (name : String)
    (args : Option ToolArgs)
    (h : name ∉ (["create_customer", "document_types", "payments_methods",
                  "search_documentation"] : List String)) :
    callTool env name args =
      (.protocolError .methodNotFound ("Unknown tool: " ++ name), 0) := by
  have h1 : name ≠ "search_documentation" := by rintro rfl; exact h (by decide)
  have h2 : name ≠ "payments_methods" := by rintro rfl; exact h (by decide)
  have h3 : name ≠ "document_types" := by rintro rfl; exact h (by decide)
  have h4 : name ≠ "create_customer" := by rintro rfl; exact h (by decide)
  unfold callTool
  rw [if_neg h1, if_neg h2, if_neg h3, if_neg h4]

/-- Witness for C8 at the unregistered tool name `get_balance`. -/
theorem unknown_tool_method_not_found_witness :
    callTool envAllFail "get_balance" none =
      (.protocolError .methodNotFound ("Unknown tool: " ++ "get_balance"), 0) :=
  unknown_tool_method_not_found envAllFail "get_balance" none (by decide)

/-- Claim C4 (code bug): the dispatcher performs no argument validation
for `create_customer` — for every environment and every argument object,
including one with no `email` field, it invokes the handler, which issues
the upstream POST (one `this.api` attempt), and returns a `ToolResponse`
envelope, never an invalid-parameters protocol error.  In particular the
call with no `email` and a failing upstream returns the fallback envelope
after the upstream attempt. -/
theorem create_customer_not_validated :
    (∀ (env : CallEnv) (args : Option ToolArgs),
      callTool env "create_customer" args =
        (.envelope (handleCreateCustomer args env.createCustomer), 1)) ∧
    callTool envAllFail "create_customer" (some noEmailArgs) =
      (.envelope createCustomerFallback, 1) := by
  constructor
  · intro env args
    rfl
  · rfl

/-- Claim C5: every handler catches its upstream/transport failure and
returns a fallback `ToolResponse` instead of throwing; the fallbacks of
`create_customer`, `document_types` and `payments_methods` leave
`isError` unset, while `search_documentation`'s error path sets
`isError` to `true`. -/
theorem handlers_swallow_failures :
    (∀ args, handleCreateCustomer args (.error ()) = createCustomerFallback) ∧
    createCustomerFallback.isError = none ∧
    handleDocumentTypes (.error ()) =
      { content := [textContent "No document types found. Try again later."]
        isError := none } ∧
    handlePaymentsMethods (.error ()) =
      { content := [textContent "No payments found. Try again later."]
        isError := none } ∧
    (∀ a msg, handleSearchDocumentation a (.error msg) =
      { content := [textContent ("Error searching documentation: " ++ msg)]
        isError := some true }) ∧
    (∀ (env : CallEnv), callTool env "document_types" none =
      (.envelope (handleDocumentTypes env.documentTypes), 1)) ∧
    (∀ (env : CallEnv), callTool env "payments_methods" none =
      (.envelope (handlePaymentsMethods env.paymentsMethods), 1)) :=
  ⟨fun _ => rfl, rfl, rfl, rfl, fun _ _ => rfl, fun _ => rfl, fun _ => rfl⟩

/-- Counterexample to claim C6: when the POST succeeds but the response
body merely lacks the `user_id` field, the handler does NOT return the
fixed fallback text — it returns the success confirmation with the JS
`undefined` interpolated as the identifier. -/
theorem create_customer_malformed_body_cex :
    handleCreateCustomer (some emailOnlyArgs) (.ok (some none)) =
      { content := [textContent "Customer created successfully with id: undefined"]
        isError := none } ∧
    handleCreateCustomer (some emailOnlyArgs) (.ok (some none)) ≠
      createCustomerFallback := by
  refine ⟨rfl, ?_⟩
  decide

/-- Claim C6 as amended: `create_customer` returns the fixed fallback
text exactly when the upstream interaction throws — a transport/HTTP
failure, or a nullish response body making the `user_id` access throw; a
successful POST whose object body lacks `user_id` instead yields the
confirmation text with `undefined` as the identifier, and one carrying
`uid` yields the confirmation text containing `uid`. -/
theorem create_customer_behavior :
    (∀ args, handleCreateCustomer args (.error ()) = createCustomerFallback) ∧
    (∀ args, handleCreateCustomer args (.ok none) = createCustomerFallback) ∧
    (∀ args uid, handleCreateCustomer args (.ok (some (some uid))) =
      { content := [textContent ("Customer created successfully with id: " ++ uid)]
        isError := none }) ∧
    (∀ args, handleCreateCustomer args (.ok (some none)) =
      { content := [textContent "Customer created successfully with id: undefined"]
        isError := none }) :=
  ⟨fun _ => rfl, fun _ => rfl, fun _ _ => rfl, fun _ => rfl⟩

/-- Claim C7: a `search_documentation` call whose `limit` lies outside
`[1,100]`, or whose `siteId` is not one of the seven site ids, or whose
`language` is not `es`/`pt`, is rejected with an invalid-parameters
protocol error and zero `this.api` attempts — so neither an auth exchange
nor a search request is ever issued. -/
theorem invalid_search_args_rejected (env : CallEnv) (a : ToolArgs)
    (h : (∃ n, a.limit = some n ∧ (n < 1 ∨ 100 < n)) ∨
         (∀ s, a.siteId = some s → s ∉ VALID_SITES) ∨
         (∀ l, a.language = some l → l ∉ (["es", "pt"] : List String))) :
    callTool env "search_documentation" (some a) =
      (.protocolError .invalidParams "Invalid search_documentation arguments", 0) := by
  have hv : isSearchDocumentationArgs (some a) = false := by
    unfold isSearchDocumentationArgs
    rcases h with ⟨n, hn, hb⟩ | h | h
    · have hlim : decide (1 ≤ n ∧ n ≤ 100) = false := by
        rw [decide_eq_false_iff_not]
        omega
      simp [hn, hlim]
    · rcases hsi : a.siteId with _ | s
      · simp [hsi]
      · have hmem : s ∉ VALID_SITES := h s hsi
        simp [hsi]
        intros
        simp_all
    · rcases hla : a.language with _ | l
      · simp [hla]
      · have hmem : l ∉ (["es", "pt"] : List String) := h l hla
        simp [hla]
        intros
        simp_all
  unfold callTool
  rw [if_pos rfl, if_neg (by simp [hv])]

/-- Witness for C7 at a call with `limit = 0`. -/
theorem invalid_search_args_rejected_witness :
    callTool envAllFail "search_documentation"
      (some { language := some "es", query := some "checkout", siteId := some "MLA"
              limit := some 0, email := none }) =
      (.protocolError .invalidParams "Invalid search_documentation arguments", 0) :=
  invalid_search_args_rejected envAllFail _
    (Or.inl ⟨0, rfl, Or.inl (by decide)⟩)

/-! ## Pipeline helper lemmas -/

theorem requestOAuthToken_callCount (env : Env) (s : PipelineState) :
    ((requestOAuthToken env s).2).callCount = s.callCount := by
  unfold requestOAuthToken
  rcases h : env.exchange s.exchangeCount with msg | tok <;> simp [h]

theorem getAccessToken_callCount (env : Env) (s : PipelineState) :
    ((getAccessToken env s).2).callCount = s.callCount := by
  unfold getAccessToken
  rcases hs : s.accessToken with _ | t
  · exact requestOAuthToken_callCount env s
  · by_cases ht : t = ""
    · simp [ht, requestOAuthToken_callCount]
    · simp [ht]

theorem apiCallRetry_callCount_le (env : Env) (s : PipelineState) :
    ((apiCallRetry env s).2).callCount ≤ s.callCount + 1 := by
  have hc := getAccessToken_callCount env s
  unfold apiCallRetry
  rcases hga : getAccessToken env s with ⟨r, s1⟩
  rw [hga] at hc
  simp only at hc
  rcases r with e | v
  · simp only
    omega
  · simp only
    rcases hr : env.response s1.callCount with d | st <;> simp [hr] <;> omega

theorem apiCall_callCount_le (env : Env) (s : PipelineState) :
    ((apiCall env s).2).callCount ≤ s.callCount + 2 := by
  have hc := getAccessToken_callCount env s
  unfold apiCall
  rcases hga : getAccessToken env s with ⟨r, s1⟩
  rw [hga] at hc
  simp only at hc
  rcases r with e | v
  · simp only
    omega
  · simp only
    rcases hr : env.response s1.callCount with d | st
    · simp [hr]
      omega
    · simp only [hr]
      by_cases h401 : st = some 401
      · rw [if_pos h401]
        have hretry := apiCallRetry_callCount_le env
          (clearToken { s1 with callCount := s1.callCount + 1 })
        simp only [clearToken]
        simp only [clearToken] at hretry
        omega
      · rw [if_neg h401]
        simp
        omega

/-! ## Pipeline claim theorems -/

/-- Claim C1: an outbound call that receives exactly one 401 and then a
200 on the re-issued call — starting from a state holding a cached
(truthy) token — performs exactly one token clear, exactly one new
token exchange and exactly one retried upstream call, and the caller
observes the successful payload, not an error. -/
theorem single_401_then_200 (env : Env) (t tok : String) (d e c k : Nat)
    (ht : t ≠ "")
    (h0 : env.response k = .failure (some 401))
    (h1 : env.response (k + 1) = .success d)
    (hex : env.exchange e = .ok tok) :
    apiCall env ⟨some t, e, c, k⟩ =
      (.ok d, ⟨some tok, e + 1, c + 1, k + 2⟩) := by
  unfold apiCall apiCallRetry getAccessToken requestOAuthToken clearToken
  simp [ht, h0, h1, hex]

/-- An environment whose first upstream call fails with 401 and whose
second succeeds with payload `7`. -/
def env401then200 : Env :=
  { exchange := fun _ => .ok "tok-B"
    response := fun n => if n = 0 then .failure (some 401) else .success 7 }

/-- Witness for C1. -/
theorem single_401_then_200_witness :
    apiCall env401then200 ⟨some "tok-A", 0, 0, 0⟩ =
      (.ok 7, ⟨some "tok-B", 1, 1, 2⟩) :=
  single_401_then_200 env401then200 "tok-A" "tok-B" 7 0 0 0 (by decide)
    rfl rfl rfl

/-- Claim C2: at most one retry is ever issued.  Conjuncts: (1) a 401 on
the retried call is propagated to the caller after exactly two upstream
calls and no further retry; (2) any non-401 failure is propagated
unchanged after a single upstream call, with no token clear; (3) the
retried call starts from the state in which the token store has already
been cleared; (4) for every environment and state, one pipeline
invocation makes at most two upstream calls. -/
theorem at_most_one_retry :
    (∀ (env : Env) (t tok : String) (e c k : Nat), t ≠ "" →
      env.exchange e = .ok tok →
      env.response k = .failure (some 401) →
      env.response (k + 1) = .failure (some 401) →
      apiCall env ⟨some t, e, c, k⟩ =
        (.error (.httpError (some 401)), ⟨some tok, e + 1, c + 1, k + 2⟩)) ∧
    (∀ (env : Env) (t : String) (st : Option Nat) (e c k : Nat), t ≠ "" →
      st ≠ some 401 →
      env.response k = .failure st →
      apiCall env ⟨some t, e, c, k⟩ =
        (.error (.httpError st), ⟨some t, e, c, k + 1⟩)) ∧
    (∀ (env : Env) (t : String) (e c k : Nat), t ≠ "" →
      env.response k = .failure (some 401) →
      apiCall env ⟨some t, e, c, k⟩ =
        apiCallRetry env (clearToken ⟨some t, e, c, k + 1⟩)) ∧
    (∀ (env : Env) (s : PipelineState),
      ((apiCall env s).2).callCount ≤ s.callCount + 2) := by
  refine ⟨?_, ?_, ?_, ?_⟩
  · intro env t tok e c k ht hex h0 h1
    unfold apiCall apiCallRetry getAccessToken requestOAuthToken clearToken
    simp [ht, h0, h1, hex]
  · intro env t st e c k ht hst h0
    unfold apiCall getAccessToken
    simp [ht, h0, hst]
  · intro env t e c k ht h0
    unfold apiCall getAccessToken
    simp [ht, h0]
  · exact apiCall_callCount_le

/-- An environment whose upstream calls always fail with 401. -/
def env401twice : Env :=
  { exchange := fun _ => .ok "tok-B"
    response := fun _ => .failure (some 401) }

/-- An environment whose first upstream call fails with 500. -/
def env500 : Env :=
  { exchange := fun _ => .ok "tok-B"
    response := fun _ => .failure (some 500) }

/-- Witness for C2, instantiating each conjunct with a hypothesis. -/
theorem at_most_one_retry_witness :
    apiCall env401twice ⟨some "tok-A", 0, 0, 0⟩ =
      (.error (.httpError (some 401)), ⟨some "tok-B", 1, 1, 2⟩) ∧
    apiCall env500 ⟨some "tok-A", 0, 0, 0⟩ =
      (.error (.httpError (some 500)), ⟨some "tok-A", 0, 0, 1⟩) ∧
    apiCall env401twice ⟨some "tok-A", 0, 0, 0⟩ =
      apiCallRetry env401twice (clearToken ⟨some "tok-A", 0, 0, 1⟩) :=
  ⟨at_most_one_retry.1 env401twice "tok-A" "tok-B" 0 0 0 (by decide)
      rfl rfl rfl,
   at_most_one_retry.2.1 env500 "tok-A" (some 500) 0 0 0 (by decide)
      (by decide) rfl,
   at_most_one_retry.2.2.1 env401twice "tok-A" 0 0 0 (by decide) rfl⟩

/-- Claim C3: `getAccessToken` returns the cached token without any
exchange whenever a (truthy) one is present, and performs the exchange
and caches its result exactly when the cache is empty; consequently two
sequential successful calls after a fresh start perform one exchange in
total. -/
theorem token_cache_reuse :
    (∀ (env : Env) (s : PipelineState) (t : String),
      s.accessToken = some t → t ≠ "" →
      getAccessToken env s = (.ok t, s)) ∧
    (∀ (env : Env) (s : PipelineState) (tok : String),
      s.accessToken = none → env.exchange s.exchangeCount = .ok tok →
      getAccessToken env s =
        (.ok tok, { s with accessToken := some tok
                           exchangeCount := s.exchangeCount + 1 })) ∧
    (∀ (env : Env) (tok : String) (d0 d1 : Nat), tok ≠ "" →
      env.exchange 0 = .ok tok →
      env.response 0 = .success d0 → env.response 1 = .success d1 →
      apiCall env ⟨none, 0, 0, 0⟩ = (.ok d0, ⟨some tok, 1, 0, 1⟩) ∧
      apiCall env ⟨some tok, 1, 0, 1⟩ = (.ok d1, ⟨some tok, 1, 0, 2⟩)) := by
  refine ⟨?_, ?_, ?_⟩
  · intro env s t hs ht
    unfold getAccessToken
    simp [hs, ht]
  · intro env s tok hs hex
    unfold getAccessToken requestOAuthToken
    simp [hs, hex]
  · intro env tok d0 d1 ht hex h0 h1
    constructor
    · unfold apiCall getAccessToken requestOAuthToken
      simp [hex, h0]
    · unfold apiCall getAccessToken
      simp [ht, h1]

/-- An environment whose upstream calls always succeed. -/
def envAllOk : Env :=
  { exchange := fun _ => .ok "tok-A"
    response := fun n => .success n }

/-- Witness for C3, instantiating each conjunct with a hypothesis. -/
theorem token_cache_reuse_witness :
    getAccessToken envAllOk ⟨some "tok-A", 1, 0, 1⟩ =
      (.ok "tok-A", ⟨some "tok-A", 1, 0, 1⟩) ∧
    getAccessToken envAllOk ⟨none, 0, 0, 0⟩ =
      (.ok "tok-A", ⟨some "tok-A", 1, 0, 0⟩) ∧
    apiCall envAllOk ⟨none, 0, 0, 0⟩ = (.ok 0, ⟨some "tok-A", 1, 0, 1⟩) ∧
    apiCall envAllOk ⟨some "tok-A", 1, 0, 1⟩ =
      (.ok 1, ⟨some "tok-A", 1, 0, 2⟩) := by
  have h1 := token_cache_reuse.1 envAllOk ⟨some "tok-A", 1, 0, 1⟩ "tok-A"
    rfl (by decide)
  have h2 := token_cache_reuse.2.1 envAllOk ⟨none, 0, 0, 0⟩ "tok-A" rfl rfl
  have h3 := token_cache_reuse.2.2 envAllOk "tok-A" 0 1 (by decide)
    rfl rfl rfl
  exact ⟨h1, h2, h3.1, h3.2⟩

/-! ## Search-documentation rendering (C9) -/

/-- The value `renderResultBlock` computes when `buildDocumentationUrl`
cannot throw (i.e. when the site domain and language are truthy, as the
argument validation guarantees): the URL expression is written out
inline. -/
def renderResultBlockOk (siteId language : String) (r : SearchResult) :
    Option String :=
  if !strTruthy r.title && !strTruthy r.content then
    none
  else
    let url := "https://" ++ SITE_DOMAINS siteId ++ "/developers/"
      ++ language ++ strOrDefault r.url ""
    some ("## " ++ strOrDefault r.title "Untitled" ++ "\n"
      ++ strOrDefault r.content "No description available"
      ++ "\n\n🔗 [Read more](" ++ url ++ ")\n\nScore: "
      ++ toString (r.score.getD 0) ++ "\n")

theorem renderResultBlock_eq_ok (siteId language : String)
    (r : SearchResult)
    (hd : SITE_DOMAINS siteId ≠ "") (hl : language ≠ "") :
    renderResultBlock siteId language r =
      .ok (renderResultBlockOk siteId language r) := by
  have hurl : buildDocumentationUrl (SITE_DOMAINS siteId) language
      (strOrDefault r.url "") =
      .ok ("https://" ++ SITE_DOMAINS siteId ++ "/developers/" ++ language
            ++ strOrDefault r.url "") := by
    unfold buildDocumentationUrl
    rw [if_neg (by simp [hd, hl])]
    have hpath : (if strOrDefault r.url "" = "" then ""
        else strOrDefault r.url "") = strOrDefault r.url "" := by
      split <;> simp_all
    rw [hpath]
  unfold renderResultBlock renderResultBlockOk
  rw [hurl]
  split <;> rfl

theorem renderBlocks_eq_ok (siteId language : String)
    (hd : SITE_DOMAINS siteId ≠ "") (hl : language ≠ "") :
    ∀ results : List SearchResult,
      renderBlocks siteId language results =
        .ok (results.map (renderResultBlockOk siteId language))
  | [] => rfl
  | r :: rs => by
      have ih := renderBlocks_eq_ok siteId language hd hl rs
      unfold renderBlocks at ih ⊢
      rw [List.mapM_cons, renderResultBlock_eq_ok siteId language r hd hl]
      rw [ih]
      rfl

/-- The rendering claim C9 describes, written from the claim's words for
comparison with `handleSearchDocumentation`: results missing both
`title` and `content` are removed from the block list and the remaining
blocks are joined by a single horizontal rule. -/
def claimSearchResponse (args : SearchDocumentationArgs)
    (results : List SearchResult) : Except String ToolResponse :=
  (renderBlocks args.siteId args.language results).map fun blocks =>
    { content := [textContent (searchHeader args.query results.length
        ++ String.intercalate "\n\n---\n\n" (blocks.filterMap id))]
      isError := none }

/-- Arguments for the C9 counterexample. -/
def cexArgs : SearchDocumentationArgs :=
  { language := "es", query := "q", siteId := "MLA", limit := none }

/-- A complete search result. -/
def cexR1 : SearchResult :=
  { title := some "A", content := some "ca", url := some "/a", score := some 1 }

/-- A search result missing both `title` and `content`. -/
def cexRBad : SearchResult :=
  { title := none, content := none, url := some "/b", score := some 2 }

/-- Another complete search result. -/
def cexR2 : SearchResult :=
  { title := some "B", content := some "cb", url := some "/c", score := some 3 }

/-- The text the handler actually renders for
`[cexR1, cexRBad, cexR2]`: note the two consecutive horizontal rules
around the skipped result's empty slot. -/
def cexActualText : String :=
  "# Search Results for \"q\"\nShowing 3 results\n\n"
    ++ "## A\nca\n\n🔗 [Read more](https://www.mercadopago.com.ar/developers/es/a)\n\nScore: 1\n"
    ++ "\n\n---\n\n" ++ "\n\n---\n\n"
    ++ "## B\ncb\n\n🔗 [Read more](https://www.mercadopago.com.ar/developers/es/c)\n\nScore: 3\n"

/-- The text claim C9 predicts for the same input: the skipped result
removed and the two kept blocks separated by a single horizontal rule. -/
def cexClaimText : String :=
  "# Search Results for \"q\"\nShowing 3 results\n\n"
    ++ "## A\nca\n\n🔗 [Read more](https://www.mercadopago.com.ar/developers/es/a)\n\nScore: 1\n"
    ++ "\n\n---\n\n"
    ++ "## B\ncb\n\n🔗 [Read more](https://www.mercadopago.com.ar/developers/es/c)\n\nScore: 3\n"

/-- Counterexample to claim C9: with a skipped result between two kept
ones, the handler renders the two kept blocks separated by TWO
consecutive horizontal rules (the skipped result keeps its `join`
separator slots), not by a single horizontal rule as the claim states —
so the actual response differs from the claim's rendering. -/
theorem search_skip_render_cex :
    handleSearchDocumentation cexArgs (.ok [cexR1, cexRBad, cexR2]) =
      { content := [textContent cexActualText], isError := none } ∧
    claimSearchResponse cexArgs [cexR1, cexRBad, cexR2] =
      .ok { content := [textContent cexClaimText], isError := none } ∧
    claimSearchResponse cexArgs [cexR1, cexRBad, cexR2] ≠
      .ok (handleSearchDocumentation cexArgs (.ok [cexR1, cexRBad, cexR2])) := by
  have h1 : handleSearchDocumentation cexArgs (.ok [cexR1, cexRBad, cexR2]) =
      { content := [textContent cexActualText], isError := none } := rfl
  have h2 : claimSearchResponse cexArgs [cexR1, cexRBad, cexR2] =
      .ok { content := [textContent cexClaimText], isError := none } := rfl
  refine ⟨h1, h2, ?_⟩
  rw [h1, h2]
  intro h
  exact absurd (Except.ok.inj h) (by decide)

/-- Claim C9 as amended: for a non-empty result list (with a valid site
and language, as the dispatcher guarantees) the rendered markdown is the
heading `# Search Results for "<query>"`, the subheading
`Showing <n> results`, and the per-result blocks joined JS-style: a
result missing only its title renders exactly as one titled "Untitled",
a result missing only its content renders exactly as one whose content
is "No description available", and a result missing both contributes an
empty block whose separator slots remain — so kept blocks adjacent to a
skipped one are separated by two consecutive horizontal rules. -/
theorem search_markdown_rendering :
    (∀ (q lang siteId : String) (lim : Option Int)
        (results : List SearchResult),
      siteId ∈ VALID_SITES → lang ∈ (["es", "pt"] : List String) →
      results ≠ [] →
      handleSearchDocumentation ⟨lang, q, siteId, lim⟩ (.ok results) =
        { content := [textContent (searchHeader q results.length
            ++ jsJoin "\n\n---\n\n"
                (results.map (renderResultBlockOk siteId lang)))]
          isError := none }) ∧
    (∀ (siteId lang c : String) (u : Option String) (sc : Option Int),
      c ≠ "" →
      renderResultBlockOk siteId lang ⟨none, some c, u, sc⟩ =
        renderResultBlockOk siteId lang ⟨some "Untitled", some c, u, sc⟩) ∧
    (∀ (siteId lang t : String) (u : Option String) (sc : Option Int),
      t ≠ "" →
      renderResultBlockOk siteId lang ⟨some t, none, u, sc⟩ =
        renderResultBlockOk siteId lang
          ⟨some t, some "No description available", u, sc⟩) ∧
    (∀ (siteId lang : String) (u : Option String) (sc : Option Int),
      renderResultBlockOk siteId lang ⟨none, none, u, sc⟩ = none) ∧
    (∀ b1 b2 : String,
      jsJoin "\n\n---\n\n" [some b1, none, some b2] =
        b1 ++ "\n\n---\n\n" ++ "\n\n---\n\n" ++ b2) := by
  refine ⟨?_, ?_, ?_, ?_, ?_⟩
  · intro q lang siteId lim results hsite hlang hne
    have hd : SITE_DOMAINS siteId ≠ "" := by fin_cases hsite <;> decide
    have hl : lang ≠ "" := by fin_cases hlang <;> decide
    have hlen : results.length ≠ 0 := by simpa using hne
    have hpos : 0 < results.length := Nat.pos_of_ne_zero hlen
    unfold handleSearchDocumentation
    simp [hlen, hpos, renderBlocks_eq_ok siteId lang hd hl]
  · intro siteId lang c u sc hc
    unfold renderResultBlockOk strTruthy strOrDefault
    simp [hc]
  · intro siteId lang t u sc ht
    unfold renderResultBlockOk strTruthy strOrDefault
    simp [ht]
  · intro siteId lang u sc
    rfl
  · intro b1 b2
    have hmerge : ("\n\n---\n\n" : String) ++ ("\n\n---\n\n" ++ b2) =
        "\n\n---\n\n\n\n---\n\n" ++ b2 := rfl
    simp [jsJoin, String.append_assoc, hmerge]

/-- Witness for C9, instantiating each conjunct with a hypothesis. -/
theorem search_markdown_rendering_witness :
    handleSearchDocumentation ⟨"es", "pix", "MLB", none⟩ (.ok [cexR1]) =
      { content := [textContent (searchHeader "pix" 1
          ++ jsJoin "\n\n---\n\n" [renderResultBlockOk "MLB" "es" cexR1])]
        isError := none } ∧
    renderResultBlockOk "MLA" "es" ⟨none, some "c", none, none⟩ =
      renderResultBlockOk "MLA" "es" ⟨some "Untitled", some "c", none, none⟩ ∧
    renderResultBlockOk "MLA" "es" ⟨some "T", none, none, none⟩ =
      renderResultBlockOk "MLA" "es"
        ⟨some "T", some "No description available", none, none⟩ :=
  ⟨search_markdown_rendering.1 "pix" "es" "MLB" none [cexR1] (by decide)
      (by decide) (by decide),
   search_markdown_rendering.2.1 "MLA" "es" "c" none none (by decide),
   search_markdown_rendering.2.2.1 "MLA" "es" "T" none none (by decide)⟩

end MercadoPago
